import Mathlib

/-!
# Verification of claude-autopilot.py

A shallow embedding of `src/claude-scripts/archive/claude-autopilot.py`
(class `ClaudeAutoPilot`) and proofs about the claims of the spec.

The script spawns a child process and has two activities:
* `auto_respond` (lines 26-36): a daemon thread that, while the `running`
  flag is set, writes "1\n" to the stdin of the child every 2 seconds (when the
  child is alive) and breaks silently on any exception;
* the monitor loop of `start_claude` (lines 64-76): reads lines from the
  stdout of the child while `running` and the child is alive, echoes non-empty
  lines, and on a trigger substring writes "1\n" immediately.

Observable effects are modelled as events; Python exceptions are modelled
explicitly as values.
-/

set_option autoImplicit false

namespace ClaudeAutoPilot

/-- Observable events of the script: `printed s` is a `print(s)` call,
`write s` a successful `stdin.write(s)` (followed by flush),
`sleep n` a `time.sleep(n)`, and `term` a `process.terminate()` that
actually signals the child. -/
inductive Ev where
  | printed (s : String)
  | write (s : String)
  | sleep (n : Nat)
  | term
deriving DecidableEq, Repr

/-- The trigger prompts of lines 70-76, in source order. -/
def prompts : List String :=
  ["do you want to proceed", "continue?", "press 1", "1)", "choose an option"]

/-- The canned response written to the stdin of the child (lines 32 and 78). -/
def response : String := "1\n"

/-- The Python expression `needle in hay` on strings, as lists of characters: does
`hay` contain `needle` as a contiguous substring? -/
def subList (needle : List Char) : List Char → Bool
  | [] => needle.isEmpty
  | c :: rest => needle.isPrefixOf (c :: rest) || subList needle rest

/-- The Python `s.lower()`, character by character (the Lean `Char.toLower`
handles the ASCII range, which covers every character of the prompt
list). -/
def lowerData (s : String) : List Char := s.data.map Char.toLower

/-- `any(prompt in output.lower() for prompt in [...])` (line 70):
does the lowercased line contain one of the trigger substrings? -/
def hasTrigger (output : String) : Bool :=
  prompts.any fun prompt => subList prompt.data (lowerData output)

/-- The message printed just before an auto-response (line 77). -/
def autoMsg : String := "🤖 Auto-responding with option 1..."

/-- The body of the monitor loop for one line read from the child
(lines 65-76 of `start_claude`): `if output:` echoes the stripped line
and, when a trigger matches, prints `autoMsg` and writes the response.
`stdinErr` is the exception raised by `stdin.write`/`flush` when the
stream is broken (`none` when writes succeed); the returned `Option` is
the exception escaping the body, and the event list holds the effects
that happened before it was raised. -/
def handleOutput (stdinErr : Option String) (output : String) :
    List Ev × Option String :=
  if output = "" then ([], none)
  else if hasTrigger output then
    match stdinErr with
    | none => ([Ev.printed output.trim, Ev.printed autoMsg, Ev.write response], none)
    | some e => ([Ev.printed output.trim, Ev.printed autoMsg], some e)
  else ([Ev.printed output.trim], none)

/-! ## The timer activity: `auto_respond` (lines 26-36)

```python
while self.running:
    try:
        if self.process and self.process.poll() is None:
            self.process.stdin.write("1\n")
            self.process.stdin.flush()
        time.sleep(2)
    except:
        break
```
-/

/-- Outcome of one iteration of the `auto_respond` loop: `next` carries
the events of the iteration and the loop repeats, `loopDone` is the `while`
condition evaluating to false, `broke` is an exception caught by the
bare `except` (carrying the events that happened before it). -/
inductive TimerRes where
  | next (evs : List Ev)
  | loopDone
  | broke (evs : List Ev)
deriving DecidableEq, Repr

/-- One iteration of `auto_respond`. `running` is the shared flag,
`alive` is `self.process and self.process.poll() is None`, and
`writeOk` tells whether `stdin.write`/`flush` succeeds. The body never
inspects the output of the child. -/
def auto_respond_iter (running alive writeOk : Bool) : TimerRes :=
  if running then
    if alive then
      if writeOk then .next [Ev.write response, Ev.sleep 2]
      else .broke []
    else .next [Ev.sleep 2]
  else .loopDone

/-- The `auto_respond` loop run for at most `fuel` iterations, reading
the environment (flag, liveness, write success) at iteration index `i`;
returns the events of the whole activity in order. -/
def auto_respond (running alive writeOk : Nat → Bool) : Nat → Nat → List Ev
  | 0, _ => []
  | fuel + 1, i =>
    match auto_respond_iter (running i) (alive i) (writeOk i) with
    | .next evs => evs ++ auto_respond running alive writeOk fuel (i + 1)
    | .loopDone => []
    | .broke evs => evs

/-! ## The monitor loop and `start_claude` (lines 47-85)

The child process as seen by the main thread: whether `poll()` is
`None`, the pending stdout lines (`readline` returns `""` once they are
exhausted, i.e. at end of stream), and the exceptions raised by stdin
writes and stdout reads, when any. -/

/-- State of the spawned child as observed through its handle. -/
structure Child where
  alive : Bool
  output : List String
  stdinErr : Option String
  readErr : Option String
deriving DecidableEq, Repr

/-- Outcome of the monitor `while` loop: it `finished` (condition became
false), an exception `raised` out of the body, or the given fuel ran
out with the loop still live (`spinning`). -/
inductive LoopRes where
  | finished (evs : List Ev) (c : Child)
  | raised (evs : List Ev) (e : String) (c : Child)
  | spinning (evs : List Ev) (c : Child)
deriving DecidableEq, Repr

/-- Prepend events to the outcome of the rest of the loop. -/
def LoopRes.prepend (evs : List Ev) : LoopRes → LoopRes
  | .finished evs' c => .finished (evs ++ evs') c
  | .raised evs' e c => .raised (evs ++ evs') e c
  | .spinning evs' c => .spinning (evs ++ evs') c

/-- The monitor loop of `start_claude` (lines 64-76):
`while self.running and self.process.poll() is None:` read a line and
run `handleOutput` on it. A read error raises; an exhausted stream
yields `""`, which the body ignores (the loop keeps spinning). -/
def monitorLoop (running : Bool) : Nat → Child → LoopRes
  | 0, c => .spinning [] c
  | fuel + 1, c =>
    if running && c.alive then
      match c.readErr with
      | some e => .raised [] e c
      | none =>
        match c.output with
        | [] =>
          (monitorLoop running fuel c).prepend
            (handleOutput c.stdinErr "").1
        | line :: rest =>
          match handleOutput c.stdinErr line with
          | (evs, some e) => .raised evs e { c with output := rest }
          | (evs, none) =>
            (monitorLoop running fuel { c with output := rest }).prepend evs
    else .finished [] c

/-- The banner printed at the top of `start_claude` (lines 40-42). -/
def banner : List Ev :=
  [Ev.printed "🚀 Starting Claude Code Auto-Pilot...",
   Ev.printed "📝 Will automatically choose option 1 for all prompts",
   Ev.printed "⏹️  Press Ctrl+C to stop"]

/-- The message printed by the `except` handler (line 81). -/
def errorMsg (e : String) : String := "❌ Error: " ++ e

/-- `start_claude` (lines 47-85) as run by `__main__`: `spawnRes` is the
outcome of `subprocess.Popen` (the text of the spawn exception on failure).
On failure the `except` prints the error, the `finally` sees
`self.process is None` and skips `terminate`, and the script returns
normally, so the interpreter exits with status 0. On success the
monitor loop runs (the responder thread is modelled separately), the
`finally` terminates the child, and the exit status is again 0. The
returned status is `none` while the loop is still spinning. -/
def start_claude (spawnRes : Except String Child) (fuel : Nat) :
    List Ev × Option Nat :=
  match spawnRes with
  | .error e => (banner ++ [Ev.printed (errorMsg e)], some 0)
  | .ok child =>
    match monitorLoop true fuel child with
    | .finished evs _ => (banner ++ evs ++ [Ev.term], some 0)
    | .raised evs e _ =>
      (banner ++ evs ++ [Ev.printed (errorMsg e), Ev.term], some 0)
    | .spinning evs _ => (banner ++ evs, none)

/-- Is an event a write to the stdin of the child? -/
def Ev.isWrite : Ev → Bool
  | .write _ => true
  | _ => false

/-! ## Interleaving model of one session

Both activities run concurrently over the shared `running` flag and the
child handle. Each Python statement of the two loops is an atomic step;
the scheduler picks the interleaving. The trace records, with each
event, the value of `running` at the moment the event happened.

Timer thread (`auto_respond`) program counters:
0 = about to test `while self.running`;
1 = about to test `self.process and self.process.poll() is None`;
2 = about to run `stdin.write("1\n"); stdin.flush()`;
3 = about to run `time.sleep(2)`;
4 = the thread is finished (loop exited, `break`, or killed with the
process: the thread is a daemon, line 60).

Main thread (monitor loop of `start_claude`) program counters:
0 = about to test `while self.running and self.process.poll() is None`;
1 = about to run `readline()`;
2 = about to run the body on the line just read;
3 = out of the loop (condition false, an exception heading for the
`except`/`finally`, or `sys.exit` raised by the signal handler, which
runs in the main thread). -/
structure Conf where
  running : Bool
  alive : Bool
  stopRequested : Bool
  timerPc : Nat
  scanPc : Nat
  pending : String
  output : List String
  exited : Bool
  trace : List (Bool × Ev)
deriving DecidableEq, Repr

/-- The schedulable atomic actions. `timerWriteOk`/`timerWriteFail` are
the two outcomes of the write of the timer; `scanHandleOk`/`scanHandleFail`
likewise for the trigger write inside the monitor body. `stop` is the
SIGINT handler `signal_handler` (lines 19-24): it runs in the main
thread, so its `sys.exit(0)` also ends the monitor loop. `childExit` is
the child terminating on its own. `mainExit` is the end of the main
thread once the monitor loop is over: the `finally` terminates the
child and interpreter shutdown kills the daemon timer thread. -/
inductive Act where
  | timerCheckRun
  | timerCheckAlive
  | timerWriteOk
  | timerWriteFail
  | timerSleep
  | scanCheck
  | scanRead
  | scanHandleOk
  | scanHandleFail (e : String)
  | stop
  | childExit
  | mainExit
deriving DecidableEq, Repr

/-- The message printed at the top of `signal_handler` (line 20). -/
def stopMsg : String := "\n🛑 Stopping Claude Auto-Pilot..."

/-- One atomic step: `none` when the action is not enabled at `c`.
Events are appended to the trace tagged with the current value of
`running`. -/
def step : Act → Conf → Option Conf
  | .timerCheckRun, c =>
    if c.timerPc = 0 then
      some { c with timerPc := if c.running then 1 else 4 }
    else none
  | .timerCheckAlive, c =>
    if c.timerPc = 1 then
      some { c with timerPc := if c.alive then 2 else 3 }
    else none
  | .timerWriteOk, c =>
    if c.timerPc = 2 then
      some { c with timerPc := 3,
                    trace := c.trace ++ [(c.running, Ev.write response)] }
    else none
  | .timerWriteFail, c =>
    if c.timerPc = 2 then some { c with timerPc := 4 }
    else none
  | .timerSleep, c =>
    if c.timerPc = 3 then
      some { c with timerPc := 0,
                    trace := c.trace ++ [(c.running, Ev.sleep 2)] }
    else none
  | .scanCheck, c =>
    if c.scanPc = 0 then
      some { c with scanPc := if c.running && c.alive then 1 else 3 }
    else none
  | .scanRead, c =>
    if c.scanPc = 1 then
      match c.output with
      | [] => some { c with scanPc := 2, pending := "" }
      | line :: rest =>
        some { c with scanPc := 2, pending := line, output := rest }
    else none
  | .scanHandleOk, c =>
    if c.scanPc = 2 then
      some { c with scanPc := 0,
                    trace := c.trace ++
                      ((handleOutput none c.pending).1.map (c.running, ·)) }
    else none
  | .scanHandleFail e, c =>
    if c.scanPc = 2 && hasTrigger c.pending then
      some { c with scanPc := 3,
                    trace := c.trace ++
                      ((handleOutput (some e) c.pending).1.map (c.running, ·)) ++
                      [(c.running, Ev.printed (errorMsg e))] }
    else none
  | .stop, c =>
    if !c.stopRequested then
      some { c with running := false, stopRequested := true, scanPc := 3,
                    trace := c.trace ++
                      [(c.running, Ev.printed stopMsg), (c.running, Ev.term)] }
    else none
  | .childExit, c =>
    if c.alive then some { c with alive := false } else none
  | .mainExit, c =>
    if c.scanPc = 3 && !c.exited then
      some { c with exited := true, timerPc := 4,
                    trace := c.trace ++ [(c.running, Ev.term)] }
    else none

/-- Run a schedule of actions from a configuration; fails when some
action is not enabled. -/
def run (acts : List Act) (c : Conf) : Option Conf :=
  match acts with
  | [] => some c
  | a :: rest =>
    match step a c with
    | some c' => run rest c'
    | none => none

/-- The session right after `start_claude` spawned the child and
started the responder thread, with the child still to produce `output`:
both loops at the top, flag set, nothing stopped. -/
def init (output : List String) : Conf :=
  { running := true, alive := true, stopRequested := false,
    timerPc := 0, scanPc := 0, pending := "", output := output,
    exited := false, trace := [] }

/-- The writes of the trace that happened while `running` was false. -/
def badWrites (tr : List (Bool × Ev)) : Nat :=
  (tr.filter fun p => !p.1 && p.2.isWrite).length

/-! ## `signal_handler` as the `stop()` operation of the session (lines 19-24)

```python
def signal_handler(self, signum, frame):
    print("\n🛑 Stopping Claude Auto-Pilot...")
    self.running = False
    if self.process:
        self.process.terminate()
    sys.exit(0)
```
-/

/-- The session state `stop()` acts on: the `running` flag, whether
`self.process` is set, and whether the exit of the child has been observed
(`Popen.returncode` is set after a `poll()`/`wait()` saw it exit; the
monitor loop polls on every iteration). -/
structure Session where
  running : Bool
  hasProc : Bool
  returncodeSet : Bool
deriving DecidableEq, Repr

/-- `Popen.terminate()`: `send_signal` skips signalling a process whose
exit has already been observed (`self.returncode is not None`),
otherwise it delivers SIGTERM. -/
def terminateProc (s : Session) : List Ev :=
  if s.returncodeSet then [] else [Ev.term]

/-- `signal_handler`: print the stop banner, clear `running`, terminate
the child if there is one, and `sys.exit(0)`. Returns the new session
state, the events, and the interpreter exit status. -/
def signal_handler (s : Session) : Session × List Ev × Nat :=
  let s' : Session := { s with running := false }
  (s', Ev.printed stopMsg :: (if s.hasProc then terminateProc s else []), 0)

/-- The session is stopped: the flag is down and the exit of the child
has been observed through its handle. -/
def Session.stopped (s : Session) : Prop :=
  s.running = false ∧ s.returncodeSet = true

/-! ## The running-flag invariant of the interleaving model

Writes happen only from a program point reached through a check of the
shared flag, so a write can land after a stop only when its check
preceded the stop: at most one such in-flight timer write exists. -/

/-- One when the timer thread sits between its `while self.running`
check and its write (so one write may still be in flight), else
zero. -/
def timerPending (c : Conf) : Nat :=
  if c.timerPc = 1 ∨ c.timerPc = 2 then 1 else 0

/-- Invariant: while the flag is up no write has landed with the flag
down; once the flag is down the main thread is out of its loop
(`sys.exit` ran there) and at most one flag-down write exists or is
still in flight in the timer thread. -/
def Inv (c : Conf) : Prop :=
  (c.running = true → badWrites c.trace = 0) ∧
  (c.running = false →
    c.scanPc = 3 ∧ badWrites c.trace + timerPending c ≤ 1)

/-- The flag-down write count of a whole scheduled session: run the
schedule from the freshly started session and count the writes that
landed while `running` was false. -/
def runBadWrites (acts : List Act) (output : List String) : Option Nat :=
  (run acts (init output)).map fun c => badWrites c.trace

end ClaudeAutoPilot

namespace ClaudeAutoPilot

/-! ## Theorems -/

/-- C1: a line containing a trigger substring (case-insensitively)
causes exactly one immediate write, of the fixed response "1" followed
by the line terminator; a line without a trigger causes no immediate
write. (Timer writes are a separate activity, modelled by
`auto_respond`.) -/
theorem trigger_line_writes_once (line : String) :
    response = "1" ++ "\n" ∧
    (hasTrigger line = true →
      (handleOutput none line).1.filter Ev.isWrite = [Ev.write response]) ∧
    (hasTrigger line = false →
      (handleOutput none line).1.filter Ev.isWrite = []) := by
  refine ⟨rfl, fun h => ?_, fun h => ?_⟩
  · have hne : line ≠ "" := by
      intro h0
      subst h0
      exact absurd h (by decide)
    simp [handleOutput, hne, h, Ev.isWrite, List.filter]
  · by_cases hne : line = ""
    · simp [handleOutput, hne]
    · simp [handleOutput, hne, h, Ev.isWrite, List.filter]

theorem trigger_line_writes_once_witness :
    (handleOutput none "Continue? (1) yes (2) no").1.filter Ev.isWrite
        = [Ev.write response] ∧
    (handleOutput none "hello world").1.filter Ev.isWrite = [] :=
  ⟨(trigger_line_writes_once "Continue? (1) yes (2) no").2.1 (by decide),
   (trigger_line_writes_once "hello world").2.2 (by decide)⟩

/-- C10: an empty `readline` result (end of stream) causes no action at
all — no echo, no trigger check, no write; a non-empty line is surfaced
first (echoed stripped) before anything else. -/
theorem empty_line_no_action :
    (∀ stdinErr : Option String, handleOutput stdinErr "" = ([], none)) ∧
    (∀ (stdinErr : Option String) (line : String), line ≠ "" →
      (handleOutput stdinErr line).1.head? = some (Ev.printed line.trim)) := by
  refine ⟨fun stdinErr => ?_, fun stdinErr line h => ?_⟩
  · simp [handleOutput]
  · by_cases ht : hasTrigger line <;> cases stdinErr <;>
      simp [handleOutput, h, ht]

theorem empty_line_no_action_witness :
    handleOutput none "" = ([], none) ∧
    (handleOutput none "hi there").1.head? = some (Ev.printed "hi there".trim) :=
  ⟨empty_line_no_action.1 none,
   empty_line_no_action.2 none "hi there" (by decide)⟩

/-- C2: while the flag is up and the child alive, every iteration of
the timer activity writes the response and then sleeps the fixed 2-unit
interval (the loop body never looks at the output of the child: it takes
none); and a failing write makes the iteration `broke` with no events
at all — the bare `except: break` ends the activity silently, with no
user-visible message and no propagated error. -/
theorem timer_writes_every_interval :
    (∀ fuel i,
      auto_respond (fun _ => true) (fun _ => true) (fun _ => true) fuel i
        = (List.replicate fuel [Ev.write response, Ev.sleep 2]).flatten) ∧
    auto_respond_iter true true false = TimerRes.broke [] := by
  refine ⟨fun fuel => ?_, rfl⟩
  induction fuel with
  | zero => intro i; rfl
  | succ n ih =>
    intro i
    simpa [auto_respond, auto_respond_iter, List.replicate_succ]
      using ih (i + 1)

/-- C9: the timer activity writes before it sleeps: its very first
event, when it starts with the flag up and the child alive, is the
response write — before any 2-unit interval has elapsed. -/
theorem timer_first_write_before_sleep (running alive writeOk : Nat → Bool)
    (fuel : Nat) (hf : 0 < fuel) (hr : running 0 = true)
    (ha : alive 0 = true) (hw : writeOk 0 = true) :
    (auto_respond running alive writeOk fuel 0).head?
      = some (Ev.write response) := by
  cases fuel with
  | zero => exact absurd hf (by simp)
  | succ n => simp [auto_respond, auto_respond_iter, hr, ha, hw]

theorem timer_first_write_before_sleep_witness :
    (auto_respond (fun _ => true) (fun _ => true) (fun _ => true) 1 0).head?
      = some (Ev.write response) :=
  timer_first_write_before_sleep (fun _ => true) (fun _ => true) (fun _ => true)
    1 (by decide) rfl rfl rfl

/-- C4 counterexample: when the spawn fails, the exception is caught
and printed, but the script then returns normally from `start_claude`,
so the interpreter exit status is 0 — not non-zero as claimed. -/
theorem spawn_failure_exit_status_cex :
    start_claude (Except.error "FileNotFoundError: claude") 1
      = (banner ++ [Ev.printed (errorMsg "FileNotFoundError: claude")],
         some 0) := rfl

/-- C4 amended: a spawn failure is surfaced to the operator as the
explicit "❌ Error: ..." message, the child handle is never created
(so `finally` terminates nothing), and the controlling process exits
with status 0. -/
theorem spawn_failure_message_exit_zero (e : String) (fuel : Nat) :
    start_claude (Except.error e) fuel
      = (banner ++ [Ev.printed (errorMsg e)], some 0) := rfl

/-- C6 counterexample: a write failure in the output-scan activity is
caught by the `except` of `start_claude`, which prints a user-visible
"❌ Error: ..." failure message — not only spawn failures are
surfaced. -/
theorem scan_write_failure_prints_error_cex :
    start_claude (Except.ok
        { alive := true, output := ["Continue? (1) yes (2) no"],
          stdinErr := some "BrokenPipeError: Broken pipe",
          readErr := none }) 2
      = (banner ++
          [Ev.printed "Continue? (1) yes (2) no".trim, Ev.printed autoMsg,
           Ev.printed (errorMsg "BrokenPipeError: Broken pipe"), Ev.term],
         some 0) := rfl

/-- C6 amended: a write failure in the timer activity ends that
activity silently (no events, no propagated error); a write failure in
the output-scan activity ends the session — the exception is caught by
the same handler that surfaces spawn failures, printing the
"❌ Error: ..." message, after which `finally` terminates the child and
the process exits with status 0 (no fatal propagation). -/
theorem write_failure_handling (e line : String) (rest : List String)
    (k : Nat) (h : hasTrigger line = true) :
    auto_respond_iter true true false = TimerRes.broke [] ∧
    start_claude (Except.ok
        { alive := true, output := line :: rest,
          stdinErr := some e, readErr := none }) (k + 1)
      = (banner ++
          [Ev.printed line.trim, Ev.printed autoMsg,
           Ev.printed (errorMsg e), Ev.term],
         some 0) := by
  refine ⟨rfl, ?_⟩
  have hne : line ≠ "" := by
    intro h0
    subst h0
    exact absurd h (by decide)
  simp [start_claude, monitorLoop, handleOutput, hne, h]

theorem write_failure_handling_witness :
    auto_respond_iter true true false = TimerRes.broke [] ∧
    start_claude (Except.ok
        { alive := true, output := ["Press 1 to continue"],
          stdinErr := some "BrokenPipeError", readErr := none }) 1
      = (banner ++
          [Ev.printed "Press 1 to continue".trim, Ev.printed autoMsg,
           Ev.printed (errorMsg "BrokenPipeError"), Ev.term],
         some 0) :=
  write_failure_handling "BrokenPipeError" "Press 1 to continue" [] 0 (by decide)

/-- C7: `stop()` (the signal handler) is idempotent: invoked on an
already stopped session (flag down, child exit observed) it leaves the
session state unchanged and performs no action on the child process —
`terminate` skips a process whose exit has been observed, so the only
effect is re-printing the stop banner. -/
theorem stop_idempotent (s : Session) (h : s.stopped) :
    (signal_handler s).1 = s ∧
    (signal_handler s).2.1 = [Ev.printed stopMsg] := by
  obtain ⟨h1, h2⟩ := h
  cases s with
  | mk running hasProc rcSet =>
    cases h1
    cases h2
    constructor <;> simp [signal_handler, terminateProc]

theorem stop_idempotent_witness :
    (signal_handler ⟨false, true, true⟩).1 = (⟨false, true, true⟩ : Session) ∧
    (signal_handler ⟨false, true, true⟩).2.1 = [Ev.printed stopMsg] :=
  stop_idempotent ⟨false, true, true⟩ ⟨rfl, rfl⟩

/-! ## Proof of the running-flag invariant -/

theorem badWrites_append (t u : List (Bool × Ev)) :
    badWrites (t ++ u) = badWrites t + badWrites u := by
  simp [badWrites, List.filter_append]

theorem badWrites_map_true (l : List Ev) :
    badWrites (l.map fun e => (true, e)) = 0 := by
  induction l with
  | nil => rfl
  | cons e l ih => exact ih

theorem badWrites_sleep (b : Bool) (n : Nat) :
    badWrites [(b, Ev.sleep n)] = 0 := by
  cases b <;> rfl

theorem badWrites_printed (b : Bool) (s : String) :
    badWrites [(b, Ev.printed s)] = 0 := by
  cases b <;> rfl

theorem badWrites_term (b : Bool) : badWrites [(b, Ev.term)] = 0 := by
  cases b <;> rfl

theorem badWrites_write_true (s : String) :
    badWrites [(true, Ev.write s)] = 0 := rfl

theorem badWrites_write_false (s : String) :
    badWrites [(false, Ev.write s)] = 1 := rfl

theorem badWrites_stop_evs (b b' : Bool) :
    badWrites [(b, Ev.printed stopMsg), (b', Ev.term)] = 0 := by
  cases b <;> cases b' <;> rfl

theorem timerPending_eq_zero {c : Conf} (h0 : c.timerPc ≠ 1)
    (h1 : c.timerPc ≠ 2) : timerPending c = 0 := by
  simp [timerPending, h0, h1]

theorem timerPending_eq_one {c : Conf}
    (h : c.timerPc = 1 ∨ c.timerPc = 2) : timerPending c = 1 := by
  simp [timerPending, h]

theorem timerPending_le (c : Conf) : timerPending c ≤ 1 := by
  unfold timerPending
  split <;> omega

theorem inv_init (output : List String) : Inv (init output) := by
  constructor
  · intro _; rfl
  · intro h; exact absurd h (by simp [init])

theorem inv_step {a : Act} {c c' : Conf} (h : step a c = some c')
    (hinv : Inv c) : Inv c' := by
  obtain ⟨hrun, hstop⟩ := hinv
  cases a with
  | timerCheckRun =>
    simp only [step] at h
    split at h
    · injection h with h
      subst h
      cases hc : c.running with
      | true =>
        refine ⟨fun _ => hrun hc, fun hr => ?_⟩
        exact Bool.noConfusion (show true = false from hr)
      | false =>
        obtain ⟨hs, hb⟩ := hstop hc
        refine ⟨fun hr => Bool.noConfusion (show false = true from hr),
                fun _ => ⟨hs, ?_⟩⟩
        show badWrites c.trace + 0 ≤ 1
        omega
    · exact absurd h (by simp)
  | timerCheckAlive =>
    simp only [step] at h
    split at h
    · next hpc =>
      injection h with h
      subst h
      refine ⟨fun hr => hrun hr, fun hr => ?_⟩
      obtain ⟨hs, hb⟩ := hstop hr
      refine ⟨hs, ?_⟩
      rw [timerPending_eq_one (Or.inl hpc)] at hb
      have hple := timerPending_le
        { c with timerPc := if c.alive = true then 2 else 3 }
      show badWrites c.trace
          + timerPending { c with timerPc := if c.alive = true then 2 else 3 }
          ≤ 1
      omega
    · exact absurd h (by simp)
  | timerWriteOk =>
    simp only [step] at h
    split at h
    · next hpc =>
      injection h with h
      subst h
      constructor
      · intro hr
        have hr' : c.running = true := hr
        show badWrites (c.trace ++ [(c.running, Ev.write response)]) = 0
        rw [hr', badWrites_append, badWrites_write_true, hrun hr']
      · intro hr
        have hr' : c.running = false := hr
        obtain ⟨hs, hb⟩ := hstop hr'
        refine ⟨hs, ?_⟩
        rw [timerPending_eq_one (Or.inr hpc)] at hb
        show badWrites (c.trace ++ [(c.running, Ev.write response)]) + 0 ≤ 1
        rw [hr', badWrites_append, badWrites_write_false]
        omega
    · exact absurd h (by simp)
  | timerWriteFail =>
    simp only [step] at h
    split at h
    · next hpc =>
      injection h with h
      subst h
      refine ⟨fun hr => hrun hr, fun hr => ?_⟩
      obtain ⟨hs, hb⟩ := hstop hr
      refine ⟨hs, ?_⟩
      rw [timerPending_eq_one (Or.inr hpc)] at hb
      show badWrites c.trace + 0 ≤ 1
      omega
    · exact absurd h (by simp)
  | timerSleep =>
    simp only [step] at h
    split at h
    · next hpc =>
      injection h with h
      subst h
      constructor
      · intro hr
        have hr' : c.running = true := hr
        show badWrites (c.trace ++ [(c.running, Ev.sleep 2)]) = 0
        rw [badWrites_append, badWrites_sleep, hrun hr']
      · intro hr
        have hr' : c.running = false := hr
        obtain ⟨hs, hb⟩ := hstop hr'
        refine ⟨hs, ?_⟩
        show badWrites (c.trace ++ [(c.running, Ev.sleep 2)]) + 0 ≤ 1
        rw [badWrites_append, badWrites_sleep]
        have hple := timerPending_le c
        omega
    · exact absurd h (by simp)
  | scanCheck =>
    simp only [step] at h
    split at h
    · next hpc =>
      injection h with h
      subst h
      refine ⟨fun hr => hrun hr, fun hr => ?_⟩
      obtain ⟨hs, _⟩ := hstop hr
      exact absurd (hs.symm.trans hpc) (by decide)
    · exact absurd h (by simp)
  | scanRead =>
    simp only [step] at h
    split at h
    · next hpc =>
      have hrn : c.running = true := by
        by_contra hneg
        have hf : c.running = false := by
          cases hc : c.running
          · rfl
          · exact absurd hc hneg
        obtain ⟨hs, _⟩ := hstop hf
        exact absurd (hs.symm.trans hpc) (by decide)
      match hout : c.output with
      | [] =>
        rw [hout] at h
        injection h with h
        subst h
        exact ⟨fun _ => hrun hrn, fun hr => absurd (hrn.symm.trans hr) (by decide)⟩
      | line :: rest =>
        rw [hout] at h
        injection h with h
        subst h
        exact ⟨fun _ => hrun hrn, fun hr => absurd (hrn.symm.trans hr) (by decide)⟩
    · exact absurd h (by simp)
  | scanHandleOk =>
    simp only [step] at h
    split at h
    · next hpc =>
      injection h with h
      subst h
      have hrn : c.running = true := by
        by_contra hneg
        have hf : c.running = false := by
          cases hc : c.running
          · rfl
          · exact absurd hc hneg
        obtain ⟨hs, _⟩ := hstop hf
        exact absurd (hs.symm.trans hpc) (by decide)
      constructor
      · intro _
        have h0 := hrun hrn
        rw [badWrites_append]
        rw [hrn, badWrites_map_true]
        omega
      · intro hr
        exact absurd (hrn.symm.trans hr) (by decide)
    · exact absurd h (by simp)
  | scanHandleFail e =>
    simp only [step] at h
    split at h
    · next hpc =>
      injection h with h
      subst h
      have hpc2 : c.scanPc = 2 := by
        rcases Bool.and_eq_true _ _ |>.mp hpc with ⟨h2, _⟩
        exact of_decide_eq_true h2
      have hrn : c.running = true := by
        by_contra hneg
        have hf : c.running = false := by
          cases hc : c.running
          · rfl
          · exact absurd hc hneg
        obtain ⟨hs, _⟩ := hstop hf
        exact absurd (hs.symm.trans hpc2) (by decide)
      constructor
      · intro _
        have h0 := hrun hrn
        rw [List.append_assoc, badWrites_append]
        rw [hrn, badWrites_append, badWrites_map_true]
        have : badWrites [(true, Ev.printed (errorMsg e))] = 0 := by
          simp [badWrites, Ev.isWrite]
        omega
      · intro hr
        exact absurd (hrn.symm.trans hr) (by decide)
    · exact absurd h (by simp)
  | stop =>
    simp only [step] at h
    split at h
    · injection h with h
      subst h
      constructor
      · intro hr
        exact Bool.noConfusion (show false = true from hr)
      · intro _
        refine ⟨rfl, ?_⟩
        show badWrites (c.trace ++ [(c.running, Ev.printed stopMsg),
              (c.running, Ev.term)]) + timerPending c ≤ 1
        rw [badWrites_append, badWrites_stop_evs]
        have hple := timerPending_le c
        cases hc : c.running with
        | true => have h0 := hrun hc; omega
        | false => obtain ⟨_, hb⟩ := hstop hc; omega
    · exact absurd h (by simp)
  | childExit =>
    simp only [step] at h
    split at h
    · injection h with h
      subst h
      exact ⟨fun hr => hrun hr, fun hr => hstop hr⟩
    · exact absurd h (by simp)
  | mainExit =>
    simp only [step] at h
    split at h
    · next hpc =>
      injection h with h
      subst h
      have hpc3 : c.scanPc = 3 := by
        rcases Bool.and_eq_true _ _ |>.mp hpc with ⟨h3, _⟩
        exact of_decide_eq_true h3
      constructor
      · intro hr
        have hr' : c.running = true := hr
        show badWrites (c.trace ++ [(c.running, Ev.term)]) = 0
        rw [badWrites_append, badWrites_term, hrun hr']
      · intro hr
        have hr' : c.running = false := hr
        obtain ⟨_, hb⟩ := hstop hr'
        refine ⟨hpc3, ?_⟩
        show badWrites (c.trace ++ [(c.running, Ev.term)]) + 0 ≤ 1
        rw [badWrites_append, badWrites_term]
        have hple := timerPending_le c
        omega
    · exact absurd h (by simp)

theorem inv_run {acts : List Act} {c c' : Conf} (h : run acts c = some c')
    (hinv : Inv c) : Inv c' := by
  induction acts generalizing c with
  | nil =>
    simp only [run] at h
    injection h with h
    subst h
    exact hinv
  | cons a rest ih =>
    simp only [run] at h
    match hstep : step a c with
    | some c1 =>
      rw [hstep] at h
      exact ih h (inv_step hstep hinv)
    | none =>
      rw [hstep] at h
      exact absurd h (by simp)

/-- C3 counterexample: schedule the timer thread past its
`while self.running` check, run the signal handler (stop) to
completion, and then let the already-guarded write land: the stdin of
the child receives one write while the session is not in the running state,
after stop has finished. -/
theorem write_after_stop_cex :
    runBadWrites [Act.timerCheckRun, Act.timerCheckAlive, Act.stop,
      Act.timerWriteOk] [] = some 1 := rfl

/-- C3 amended: in every interleaving of the two activities with the
signal handler, at most one write to the stdin of the child can happen while
the session is not running — the single in-flight timer write whose
`while self.running` check preceded the stop. The output-scan activity
runs in the main thread, which `sys.exit` leaves at once, so it
contributes none. -/
theorem at_most_one_write_after_stop (acts : List Act)
    (output : List String) (n : Nat)
    (h : runBadWrites acts output = some n) : n ≤ 1 := by
  unfold runBadWrites at h
  match hr : run acts (init output) with
  | none =>
    rw [hr] at h
    exact absurd h (by simp)
  | some c' =>
    rw [hr] at h
    have h : badWrites c'.trace = n := by simpa using h
    subst h
    have hinv := inv_run hr (inv_init output)
    cases hc : c'.running with
    | true => rw [hinv.1 hc]; omega
    | false =>
      obtain ⟨_, hb⟩ := hinv.2 hc
      omega

theorem at_most_one_write_after_stop_witness : (1 : Nat) ≤ 1 :=
  at_most_one_write_after_stop
    [Act.timerCheckRun, Act.timerCheckAlive, Act.stop, Act.timerWriteOk]
    [] 1 rfl

/-- C5: when the child process has exited on its own and no stop was
requested, the next check of the monitor loop leaves the loop; the main
thread, on ending, then runs the `finally` (terminating the child handle) and
interpreter shutdown stops the daemon responder thread: both activities
stop, the session is over, and the only event produced is the
terminate — no error message, no write. -/
theorem child_exit_stops_session (c : Conf) (halive : c.alive = false)
    (hpc : c.scanPc = 0) (hex : c.exited = false)
    (_hnostop : c.stopRequested = false) :
    run [Act.scanCheck, Act.mainExit] c
      = some { c with scanPc := 3, timerPc := 4, exited := true,
                      trace := c.trace ++ [(c.running, Ev.term)] } := by
  simp [run, step, hpc, halive, hex]

theorem child_exit_stops_session_witness :
    run [Act.scanCheck, Act.mainExit] { init [] with alive := false }
      = some { init [] with alive := false, scanPc := 3, timerPc := 4,
                            exited := true, trace := [(true, Ev.term)] } :=
  child_exit_stops_session { init [] with alive := false } rfl rfl rfl rfl

/-- C8 counterexample: with the output stream at its end (`readline`
returns `""`) but the child still alive, one complete iteration of the
monitor loop returns the session to exactly the same live state — the
loop has not ended and nothing moved toward stopped, so end-of-stream
alone does not end the read loop. -/
theorem eof_keeps_loop_alive_cex :
    run [Act.scanCheck, Act.scanRead, Act.scanHandleOk] (init [])
        = some (init []) ∧
    (init []).scanPc = 0 ∧ (init []).alive = true ∧
    (init []).exited = false :=
  ⟨rfl, rfl, rfl, rfl⟩

/-- C8 amended: a read error ends the read loop at once (the exception
leaves for the `except`/`finally`), and the loop also ends once the
child has exited; end-of-stream alone never ends it — with the child
alive and the stream exhausted, the loop spins unchanged under any
amount of fuel. -/
theorem read_loop_end_conditions :
    (∀ (c : Child) (k : Nat) (e : String), c.readErr = some e →
      c.alive = true →
      monitorLoop true (k + 1) c = LoopRes.raised [] e c) ∧
    (∀ (c : Child) (k : Nat), c.alive = false →
      monitorLoop true (k + 1) c = LoopRes.finished [] c) ∧
    (∀ (c : Child) (n : Nat), c.alive = true → c.readErr = none →
      c.output = [] →
      monitorLoop true n c = LoopRes.spinning [] c) := by
  refine ⟨fun c k e hre ha => ?_, fun c k ha => ?_,
          fun c n ha hre ho => ?_⟩
  · simp [monitorLoop, ha, hre]
  · simp [monitorLoop, ha]
  · induction n with
    | zero => rfl
    | succ m ih =>
      simp [monitorLoop, ha, hre, ho, ih, handleOutput, LoopRes.prepend]

theorem read_loop_end_conditions_witness :
    monitorLoop true 1
        { alive := true, output := [], stdinErr := none,
          readErr := some "OSError" }
      = LoopRes.raised [] "OSError"
          { alive := true, output := [], stdinErr := none,
            readErr := some "OSError" } ∧
    monitorLoop true 1
        { alive := false, output := [], stdinErr := none, readErr := none }
      = LoopRes.finished []
          { alive := false, output := [], stdinErr := none,
            readErr := none } ∧
    monitorLoop true 5
        { alive := true, output := [], stdinErr := none, readErr := none }
      = LoopRes.spinning []
          { alive := true, output := [], stdinErr := none,
            readErr := none } :=
  ⟨read_loop_end_conditions.1 _ 0 _ rfl rfl,
   read_loop_end_conditions.2.1 _ 0 rfl,
   read_loop_end_conditions.2.2 _ 5 rfl rfl rfl⟩

end ClaudeAutoPilot
